import Mathlib

/-!
# RiskMetric Bronze-Layer Generator — shallow embedding

Shallow embedding of `src/generator.py` (synthetic transaction generator
with three injected fraud archetypes) and proofs about the claims of the
specification.

Modelling conventions:
* Python floats are modelled as rationals (`ℚ`); `round(x, 2)` is modelled
  as rounding to the nearest multiple of 1/100 (`round2`), `round(x, 6)`
  as `round6`.  All stated bounds only use `|round2 x - x| ≤ 1/200`, which
  holds both for round-half-up and for Python's round-half-even.
* Timestamps are seconds since the window start `2025-01-01 00:00:00`
  (a natural number); `datetime(2025,12,31) - datetime(2025,1,1)` is
  364 days = `31449600` seconds.
* Each random draw of the seeded sources (`random`, `np.random`, `Faker`)
  becomes an explicit stream parameter (a function out of `ℕ`), with the
  range of the corresponding `uniform` / `randint` / `choice` call stated
  as a hypothesis where a theorem needs it.  `uuid.uuid4()` is *not*
  seeded in the source, so transaction identifiers come from separate
  streams, kept apart from the seeded draws.
* User identifiers are rendered as the zero-padded string `USR-%06d` in
  the source; we model them as the underlying natural index, which is
  injective and, for populations below 10^6 (the source uses 5000),
  order-isomorphic to the string rendering used by the final sort.
* `pandas.sample` index choices, `random.choice` catalog choices and the
  `random.shuffle` permutation are likewise explicit parameters.
-/

namespace RiskMetric

/-- `round(x, 2)`: round to the nearest multiple of 1/100. -/
def round2 (q : ℚ) : ℚ := (round (q * 100) : ℤ) / 100

/-- `round(x, 6)`: round to the nearest multiple of 1/10^6 (coordinates). -/
def round6 (q : ℚ) : ℚ := (round (q * 1000000) : ℤ) / 1000000

/-- One entry of the fixed `CITIES` catalog. -/
structure City where
  name : String
  country : String
  lat : ℚ
  lon : ℚ
deriving DecidableEq, Repr, Inhabited

/-- The fixed catalog of 20 world cities (`CITIES` in the source). -/
def CITIES : List City := [
  ⟨"New York",    "US", 40.7128,  -74.0060⟩,
  ⟨"London",      "GB", 51.5074,  -0.1278⟩,
  ⟨"Tokyo",       "JP", 35.6762,  139.6503⟩,
  ⟨"Sydney",      "AU", -33.8688, 151.2093⟩,
  ⟨"São Paulo",   "BR", -23.5505, -46.6333⟩,
  ⟨"Mumbai",      "IN", 19.0760,  72.8777⟩,
  ⟨"Dubai",       "AE", 25.2048,  55.2708⟩,
  ⟨"Singapore",   "SG", 1.3521,   103.8198⟩,
  ⟨"Toronto",     "CA", 43.6532,  -79.3832⟩,
  ⟨"Berlin",      "DE", 52.5200,  13.4050⟩,
  ⟨"Paris",       "FR", 48.8566,  2.3522⟩,
  ⟨"Lagos",       "NG", 6.5244,   3.3792⟩,
  ⟨"Mexico City", "MX", 19.4326,  -99.1332⟩,
  ⟨"Seoul",       "KR", 37.5665,  126.9780⟩,
  ⟨"Chicago",     "US", 41.8781,  -87.6298⟩,
  ⟨"Los Angeles", "US", 34.0522,  -118.2437⟩,
  ⟨"Shanghai",    "CN", 31.2304,  121.4737⟩,
  ⟨"Moscow",      "RU", 55.7558,  37.6173⟩,
  ⟨"Cairo",       "EG", 30.0444,  31.2357⟩,
  ⟨"Istanbul",    "TR", 41.0082,  28.9784⟩]

/-- The fixed catalog of distant city pairs (`DISTANT_PAIRS`), as index
pairs into `CITIES`. -/
def DISTANT_PAIRS : List (Nat × Nat) :=
  [(0, 1), (0, 2), (1, 3), (2, 4), (5, 6), (7, 3), (0, 15), (1, 16)]

/-- The fixed merchant-category catalog (`MERCHANT_CATEGORIES`). -/
def MERCHANT_CATEGORIES : List String := [
  "Grocery", "Restaurant", "Gas Station", "Online Shopping",
  "Electronics", "Travel", "Entertainment", "Healthcare",
  "Utilities", "Clothing", "Hotel", "ATM Withdrawal",
  "Wire Transfer", "Subscription", "Insurance"]

/-- Indices into `MERCHANT_CATEGORIES` of the four categories the drift
injector chooses from (`["Wire Transfer", "Electronics", "Travel",
"Online Shopping"]`). -/
def DRIFT_CATEGORIES : List Nat := [12, 4, 5, 3]

/-- `datetime(2025,12,31) - datetime(2025,1,1)` in seconds (364 days);
both the legitimate sampler's window width and the injectors'
`timedelta(days=364)` base-timestamp bound. -/
def delta_seconds : Nat := 31449600

/-- A user profile row (`generate_user_profiles`).  `user_id` is the
index rendered as `USR-%06d` in the source; `home_city` is the index of
the chosen `CITIES` entry (the source denormalizes its name, country,
lat and lon into the row). -/
structure Profile where
  user_id : Nat
  home_city : Nat
  avg_amount : ℚ
  std_amount : ℚ
deriving DecidableEq, Repr, Inhabited

/-- The archetype tag (`fraud_type` column when not null). -/
inductive FraudType where
  | impossible_travel
  | velocity_spike
  | behavioral_drift
deriving DecidableEq, Repr

/-- A transaction record.  `transaction_id` stands for the `uuid4`
string; `merchant_name` for the Faker company-name draw;
`merchant_category` and `city` are indices into the catalogs;
`timestamp` is in seconds since 2025-01-01 00:00:00. -/
structure Txn where
  transaction_id : Nat
  user_id : Nat
  timestamp : Nat
  amount : ℚ
  merchant_name : Nat
  merchant_category : Nat
  city : Nat
  latitude : ℚ
  longitude : ℚ
  is_fraud : Bool
  fraud_type : Option FraudType
deriving DecidableEq, Repr, Inhabited

/-! ## User profile generator (`generate_user_profiles`) -/

/-- The random draws consumed per profile: the `random.choice(CITIES)`
index, the `random.uniform(20, 500)` average spend, and the
`random.uniform(0.15, 0.40)` std fraction. -/
structure ProfileDraw where
  cityChoice : Nat
  avgRaw : ℚ
  stdFrac : ℚ

/-- One iteration of the profile loop:
`avg_spend = round(uniform(20,500), 2)`;
`std_spend = round(avg_spend * uniform(0.15,0.40), 2)`. -/
def mkProfile (i : Nat) (d : ProfileDraw) : Profile :=
  let avg := round2 d.avgRaw
  { user_id := i
    home_city := d.cityChoice
    avg_amount := avg
    std_amount := round2 (avg * d.stdFrac) }

/-- `generate_user_profiles(n_users)`. -/
def generate_user_profiles (n_users : Nat) (d : Nat → ProfileDraw) :
    List Profile :=
  (List.range n_users).map (fun i => mkProfile i (d i))

/-! ## Legitimate sampler (`generate_legitimate_transactions`) -/

/-- The random draws consumed per legitimate transaction: the
`users.sample(1)` row index, the two `uniform(-0.5, 0.5)` coordinate
jitters, the `np.random.normal(avg, std)` amount, the
`randint(0, delta_seconds)` timestamp offset, the Faker merchant name
and the `random.choice(MERCHANT_CATEGORIES)` index. -/
structure LegitDraw where
  userChoice : Nat
  jlat : ℚ
  jlon : ℚ
  amtRaw : ℚ
  tsOffset : Nat
  merchant : Nat
  catChoice : Nat

/-- One iteration of the legitimate-transaction loop:
`amount = max(0.50, round(normal(avg, std), 2))`,
`ts = start_date + timedelta(seconds=randint(0, delta_seconds))`,
located at the user's home city with jittered coordinates,
`is_fraud=False`, `fraud_type=None`. -/
def mkLegitTxn (users : List Profile) (id_ : Nat) (d : LegitDraw) : Txn :=
  let user := users.getD d.userChoice default
  let city := CITIES.getD user.home_city default
  { transaction_id := id_
    user_id := user.user_id
    timestamp := d.tsOffset
    amount := max (1/2) (round2 d.amtRaw)
    merchant_name := d.merchant
    merchant_category := d.catChoice
    city := user.home_city
    latitude := round6 (city.lat + d.jlat)
    longitude := round6 (city.lon + d.jlon)
    is_fraud := false
    fraud_type := none }

/-- `generate_legitimate_transactions(users, n_txns)`; `ids` is the
stream of (unseeded) `uuid4` identifiers. -/
def generate_legitimate_transactions (users : List Profile) (n_txns : Nat)
    (d : Nat → LegitDraw) (ids : Nat → Nat) : List Txn :=
  (List.range n_txns).map (fun j => mkLegitTxn users (ids j) (d j))

/-! ## Impossible-travel injector (`inject_impossible_travel`) -/

/-- The random draws consumed per impossible-travel trial: the
`users.sample(..., replace=True)` row index, the
`random.choice(DISTANT_PAIRS)` index, the base-timestamp offset
`randint(0, 364 days)`, the gap `randint(2, 10)` in minutes, and per
emitted record an amount `uniform(10, 2000)`, a Faker merchant name, a
`random.choice(MERCHANT_CATEGORIES)` index and two
`uniform(-0.01, 0.01)` coordinate jitters. -/
structure TravelDraw where
  userChoice : Nat
  pairChoice : Nat
  baseOffset : Nat
  gapMinutes : Nat
  amtA : ℚ
  amtB : ℚ
  merchA : Nat
  merchB : Nat
  catA : Nat
  catB : Nat
  jlatA : ℚ
  jlonA : ℚ
  jlatB : ℚ
  jlonB : ℚ

/-- The record emitted for position `idx ∈ {0, 1}` of a travel pair:
`ts = base_ts + timedelta(minutes=idx * gap_minutes)`, located in the
`idx`-th city of the chosen pair, `is_fraud=True`,
`fraud_type="impossible_travel"`. -/
def mkTravelTxn (users : List Profile) (id_ : Nat) (d : TravelDraw)
    (idx : Nat) : Txn :=
  let user := users.getD d.userChoice default
  let pair := DISTANT_PAIRS.getD d.pairChoice default
  let cityIdx := if idx = 0 then pair.1 else pair.2
  let city := CITIES.getD cityIdx default
  { transaction_id := id_
    user_id := user.user_id
    timestamp := d.baseOffset + idx * (d.gapMinutes * 60)
    amount := round2 (if idx = 0 then d.amtA else d.amtB)
    merchant_name := if idx = 0 then d.merchA else d.merchB
    merchant_category := if idx = 0 then d.catA else d.catB
    city := cityIdx
    latitude := round6 (city.lat + (if idx = 0 then d.jlatA else d.jlatB))
    longitude := round6 (city.lon + (if idx = 0 then d.jlonA else d.jlonB))
    is_fraud := true
    fraud_type := some FraudType.impossible_travel }

/-- The two records of trial `k` (loop body over `[city_a, city_b]`). -/
def travelPair (users : List Profile) (d : TravelDraw) (idA idB : Nat) :
    List Txn :=
  [mkTravelTxn users idA d 0, mkTravelTxn users idB d 1]

/-- `inject_impossible_travel(users, n_pairs)`.  Note the source iterates
over `users.sample(n=min(n_pairs, len(users)), replace=True)`, so the
number of trials is `min n_pairs users.length`, not `n_pairs`. -/
def inject_impossible_travel (users : List Profile) (n_pairs : Nat)
    (d : Nat → TravelDraw) (ids : Nat → Nat) : List Txn :=
  (List.range (min n_pairs users.length)).flatMap
    (fun k => travelPair users (d k) (ids (2 * k)) (ids (2 * k + 1)))

/-! ## Velocity-spike injector (`inject_velocity_spikes`) -/

/-- The random draws consumed per velocity-spike burst: the base
timestamp offset `randint(0, 364 days)`, the burst size
`randint(10, 20)`, the `random.choice(CITIES)` index, and per
micro-transaction an offset `randint(0, 55)` in seconds, an amount
`uniform(0.01, 2.00)`, a Faker merchant name and two
`uniform(-0.01, 0.01)` coordinate jitters.  (The row index of the
without-replacement `users.sample` is a separate stream `sel`.) -/
structure SpikeDraw where
  baseOffset : Nat
  nMicro : Nat
  cityChoice : Nat
  offs : Nat → Nat
  amts : Nat → ℚ
  merchs : Nat → Nat
  jlats : Nat → ℚ
  jlons : Nat → ℚ

/-- The `i`-th micro-transaction of a burst:
`ts = base_ts + timedelta(seconds=randint(0, 55))`, amount
`round(uniform(0.01, 2.00), 2)`, category fixed to `"Online Shopping"`
(index 3 of `MERCHANT_CATEGORIES`), `is_fraud=True`,
`fraud_type="velocity_spike"`. -/
def mkSpikeTxn (users : List Profile) (userIdx : Nat) (id_ : Nat)
    (d : SpikeDraw) (i : Nat) : Txn :=
  let user := users.getD userIdx default
  let city := CITIES.getD d.cityChoice default
  { transaction_id := id_
    user_id := user.user_id
    timestamp := d.baseOffset + d.offs i
    amount := round2 (d.amts i)
    merchant_name := d.merchs i
    merchant_category := 3
    city := d.cityChoice
    latitude := round6 (city.lat + d.jlats i)
    longitude := round6 (city.lon + d.jlons i)
    is_fraud := true
    fraud_type := some FraudType.velocity_spike }

/-- The burst emitted for trial `k` (the inner `for i in range(n_micro)`
loop). -/
def spikeBurst (users : List Profile) (userIdx : Nat) (d : SpikeDraw)
    (ids : Nat → Nat) : List Txn :=
  (List.range d.nMicro).map (fun i => mkSpikeTxn users userIdx (ids i) d i)

/-- `inject_velocity_spikes(users, n_users)`.  The source iterates over
`users.sample(n=min(n_users, len(users)), replace=False)`: `sel k` is
the row index of the `k`-th sampled user (injectivity of `sel`, i.e.
sampling without replacement, is a hypothesis of the theorems). -/
def inject_velocity_spikes (users : List Profile) (n_users : Nat)
    (sel : Nat → Nat) (d : Nat → SpikeDraw) (ids : Nat → Nat → Nat) :
    List Txn :=
  (List.range (min n_users users.length)).flatMap
    (fun k => spikeBurst users (sel k) (d k) (ids k))

/-! ## Behavioral-drift injector (`inject_behavioral_drift`) -/

/-- The random draws consumed per drift record: the
`users.sample(..., replace=True)` row index, the sigma multiplier
`uniform(3.5, 8.0)`, the timestamp offset `randint(0, 364 days)`, a
Faker merchant name, the `random.choice` index into the four drift
categories, and two `uniform(-0.3, 0.3)` coordinate jitters. -/
structure DriftDraw where
  userChoice : Nat
  sigmaMult : ℚ
  tsOffset : Nat
  merchant : Nat
  catChoice : Nat
  jlat : ℚ
  jlon : ℚ

/-- One drift record:
`drift_amount = max(round(avg + sigma_multiplier * std, 2), 500.0)`,
at the user's home city with jitter, `is_fraud=True`,
`fraud_type="behavioral_drift"`. -/
def mkDriftTxn (users : List Profile) (id_ : Nat) (d : DriftDraw) : Txn :=
  let user := users.getD d.userChoice default
  let city := CITIES.getD user.home_city default
  { transaction_id := id_
    user_id := user.user_id
    timestamp := d.tsOffset
    amount := max (round2 (user.avg_amount + d.sigmaMult * user.std_amount))
                  500
    merchant_name := d.merchant
    merchant_category := DRIFT_CATEGORIES.getD d.catChoice default
    city := user.home_city
    latitude := round6 ((CITIES.getD user.home_city default).lat + d.jlat)
    longitude := round6 (city.lon + d.jlon)
    is_fraud := true
    fraud_type := some FraudType.behavioral_drift }

/-- `inject_behavioral_drift(users, n_txns)`.  As for impossible travel,
the source iterates over `users.sample(n=min(n_txns, len(users)),
replace=True)`, so the number of emitted records is
`min n_txns users.length`. -/
def inject_behavioral_drift (users : List Profile) (n_txns : Nat)
    (d : Nat → DriftDraw) (ids : Nat → Nat) : List Txn :=
  (List.range (min n_txns users.length)).map
    (fun k => mkDriftTxn users (ids k) (d k))

/-! ## Assembler (`main`) -/

/-- The sort key of `df.sort_values(["user_id", "timestamp"])`. -/
def sortKey (t : Txn) : Nat × Nat := (t.user_id, t.timestamp)

/-- Lexicographic "less or equal" on the (user, timestamp) key. -/
def KeyLE (a b : Txn) : Prop :=
  a.user_id < b.user_id ∨ (a.user_id = b.user_id ∧ a.timestamp ≤ b.timestamp)

instance : DecidableRel KeyLE := fun a b => by
  unfold KeyLE; infer_instance

instance : IsTotal Txn KeyLE :=
  ⟨fun a b => by unfold KeyLE; omega⟩

instance : IsTrans Txn KeyLE :=
  ⟨fun a b c hab hbc => by unfold KeyLE at *; omega⟩

/-- The canonical re-sort by `(user_id, timestamp)` ascending.  The
source uses pandas' default (unstable) quicksort; any comparison sort
permutes the input into key order using only key comparisons, and every
theorem below depends only on that, so we embed it as an insertion
sort. -/
def sortByKey (l : List Txn) : List Txn := List.insertionSort KeyLE l

/-- `random.shuffle` rearranges a list in place by a permutation drawn
from the seeded RNG.  We embed the permutation as the explicit index
list `sel`: position `j` of the result holds element `sel j` of the
input (`sel` being a permutation of `range l.length` is a hypothesis of
the theorems). -/
def permuteIdx (sel : List Nat) (l : List Txn) : List Txn :=
  sel.filterMap (fun i => l[i]?)

/-- The target counts of `main` (`NUM_USERS`, `NUM_TRANSACTIONS`,
`FRAUD_IMPOSSIBLE_TRAVEL`, `FRAUD_VELOCITY_SPIKE_USERS`,
`FRAUD_BEHAVIORAL_DRIFT`; constants in the source, parameters here). -/
structure Counts where
  nUsers : Nat
  nTxns : Nat
  nPairs : Nat
  nSpikeUsers : Nat
  nDrift : Nat

/-- All draws of the seeded random sources consumed by one run. -/
structure Draws where
  profileD : Nat → ProfileDraw
  legitD : Nat → LegitDraw
  travelD : Nat → TravelDraw
  spikeSel : Nat → Nat
  spikeD : Nat → SpikeDraw
  driftD : Nat → DriftDraw
  shuffleSel : List Nat

/-- The `uuid4` identifier streams, one per generating component.  These
model `uuid.uuid4()`, which does *not* read the seeded RNGs, so they are
kept separate from `Draws`. -/
structure Ids where
  legit : Nat → Nat
  travel : Nat → Nat
  spike : Nat → Nat → Nat
  drift : Nat → Nat

/-- `all_txns = legit + impossible + velocity + drift` in `main`. -/
def assembled (c : Counts) (d : Draws) (ids : Ids) : List Txn :=
  let users := generate_user_profiles c.nUsers d.profileD
  generate_legitimate_transactions users c.nTxns d.legitD ids.legit
    ++ inject_impossible_travel users c.nPairs d.travelD ids.travel
    ++ inject_velocity_spikes users c.nSpikeUsers d.spikeSel d.spikeD ids.spike
    ++ inject_behavioral_drift users c.nDrift d.driftD ids.drift

/-- `main` without the I/O: generate profiles, the four record streams,
concatenate, shuffle (`random.shuffle(all_txns)`), and re-sort by
`(user_id, timestamp)` ascending. -/
def main_pipeline (c : Counts) (d : Draws) (ids : Ids) : List Txn :=
  sortByKey (permuteIdx d.shuffleSel (assembled c d ids))

/-- Forget the (unseeded) `uuid4` transaction identifier; used to state
which parts of the output are reproducible from the seed alone. -/
def eraseId (t : Txn) : Txn := { t with transaction_id := 0 }

/-! ## Concrete example inputs used by witnesses and counterexamples -/

/-- An example profile draw within the source's uniform ranges
(`uniform(20, 500) = 20`, `uniform(0.15, 0.40) = 0.15`). -/
def exProfileDraw : ProfileDraw := ⟨0, 20, 3 / 20⟩

/-- An example legitimate-transaction draw (all offsets zero). -/
def exLegitDraw : LegitDraw := ⟨0, 0, 0, 0, 0, 0, 0⟩

/-- An example impossible-travel draw (`gap_minutes = 2`, amounts 10). -/
def exTravelDraw : TravelDraw := ⟨0, 0, 0, 2, 10, 10, 0, 0, 0, 0, 0, 0, 0, 0⟩

/-- An example velocity-spike draw (`n_micro = 10`, offsets 0,
amounts 0.01). -/
def exSpikeDraw : SpikeDraw :=
  ⟨0, 10, 0, fun _ => 0, fun _ => 1 / 100, fun _ => 0, fun _ => 0, fun _ => 0⟩

/-- An example behavioral-drift draw (`sigma_multiplier = 3.5`). -/
def exDriftDraw : DriftDraw := ⟨0, 7 / 2, 0, 0, 0, 0, 0⟩

/-- Example draw bundle built from the constant streams above, with a
given shuffle permutation. -/
def exDraws (sh : List Nat) : Draws :=
  ⟨fun _ => exProfileDraw, fun _ => exLegitDraw, fun _ => exTravelDraw,
   fun _ => 0, fun _ => exSpikeDraw, fun _ => exDriftDraw, sh⟩

/-- Example identifier streams (all zero). -/
def exIds : Ids := ⟨fun _ => 0, fun _ => 0, fun _ _ => 0, fun _ => 0⟩

/-- Two distinct records sharing the `(user_id, timestamp)` sort key
(they differ in `transaction_id` and `amount`). -/
def cexA : Txn := ⟨0, 0, 0, 1, 0, 0, 0, 0, 0, false, none⟩

/-- See `cexA`. -/
def cexB : Txn := ⟨1, 0, 0, 2, 0, 0, 0, 0, 0, false, none⟩

/-! ## Rounding lemmas -/

theorem round2_le (q : ℚ) : round2 q ≤ q + 1 / 200 := by
  have h : ((round (q * 100) : ℤ) : ℚ) ≤ q * 100 + 1 / 2 := by
    rw [round_eq]
    exact Int.floor_le _
  unfold round2
  linarith

theorem sub_lt_round2 (q : ℚ) : q - 1 / 200 < round2 q := by
  have h : q * 100 + 1 / 2 - 1 < ((round (q * 100) : ℤ) : ℚ) := by
    rw [round_eq]
    exact Int.sub_one_lt_floor _
  unfold round2
  linarith

theorem round2_mono {a b : ℚ} (h : a ≤ b) : round2 a ≤ round2 b := by
  unfold round2
  have hf : round (a * 100) ≤ round (b * 100) := by
    rw [round_eq, round_eq]
    exact Int.floor_mono (by linarith)
  have : ((round (a * 100) : ℤ) : ℚ) ≤ ((round (b * 100) : ℤ) : ℚ) :=
    Int.cast_le.mpr hf
  linarith

/-- `round2` fixes exact multiples of 1/100. -/
theorem round2_div_cast (z : ℤ) : round2 ((z : ℚ) / 100) = (z : ℚ) / 100 := by
  unfold round2
  rw [div_mul_cancel₀ _ (by norm_num : (100 : ℚ) ≠ 0), round_intCast]

/-! ## Profile generator lemmas -/

theorem generate_user_profiles_length (n : Nat) (d : Nat → ProfileDraw) :
    (generate_user_profiles n d).length = n := by
  simp [generate_user_profiles]

theorem generate_user_profiles_getD (n i : Nat) (d : Nat → ProfileDraw)
    (h : i < n) :
    (generate_user_profiles n d).getD i default = mkProfile i (d i) := by
  unfold generate_user_profiles
  rw [List.getD_eq_getElem?_getD, List.getElem?_map, List.getElem?_range h]
  rfl

theorem generate_user_profiles_map_id (n : Nat) (d : Nat → ProfileDraw) :
    (generate_user_profiles n d).map Profile.user_id = List.range n := by
  unfold generate_user_profiles
  rw [List.map_map]
  exact List.map_id _

/-- Concrete evaluation of `round2` via the floor characterization. -/
theorem round2_eval (q : ℚ) (z : ℤ) (h₁ : (z : ℚ) ≤ q * 100 + 1 / 2)
    (h₂ : q * 100 + 1 / 2 < z + 1) : round2 q = (z : ℚ) / 100 := by
  unfold round2
  rw [round_eq, Int.floor_eq_iff.mpr ⟨h₁, h₂⟩]

/-! ## Claim C1 — behavioral drift exceeds mean + 3σ -/

/-- Core arithmetic of the drift bound: for a profile built from draws
`avgRaw ≥ 20` and `stdFrac ≥ 0.15`, and any sigma multiplier `≥ 3.5`,
the rounded-then-floored drift amount strictly exceeds
`avg_amount + 3 * std_amount`. -/
theorem drift_amount_core (avgRaw frac m : ℚ) (h1 : 20 ≤ avgRaw)
    (h3 : 3 / 20 ≤ frac) (h5 : 7 / 2 ≤ m) :
    round2 avgRaw + 3 * round2 (round2 avgRaw * frac)
      < max (round2 (round2 avgRaw + m * round2 (round2 avgRaw * frac)))
          500 := by
  set avg := round2 avgRaw with havg_def
  set std := round2 (avg * frac) with hstd_def
  have h20 : round2 (20 : ℚ) = 20 := by
    have h := round2_div_cast 2000
    norm_num at h
    exact h
  have havg : (20 : ℚ) ≤ avg := h20 ▸ round2_mono h1
  have hmul : (3 : ℚ) ≤ avg * frac := by
    nlinarith [mul_nonneg (by linarith : (0:ℚ) ≤ avg - 20)
      (by linarith : (0:ℚ) ≤ frac - 3 / 20)]
  have hstd : (3 : ℚ) - 1 / 200 < std :=
    lt_of_le_of_lt (by linarith) (sub_lt_round2 (avg * frac))
  have hstd0 : (0 : ℚ) ≤ std := by linarith
  have hr := sub_lt_round2 (avg + m * std)
  have hm : 7 / 2 * std ≤ m * std := mul_le_mul_of_nonneg_right h5 hstd0
  have hlt : avg + 3 * std < round2 (avg + m * std) := by linarith
  exact lt_of_lt_of_le hlt (le_max_left _ _)

/-- C1. Every record emitted by `inject_behavioral_drift` has an amount
strictly greater than the selected user's stored `avg_amount` plus 3
times that user's stored `std_amount`, for every population produced by
`generate_user_profiles` from draws in the source's uniform ranges
(`avgRaw ∈ [20, 500]`, `stdFrac ∈ [0.15, 0.40]`) and every sigma
multiplier in `[3.5, 8.0]`. -/
theorem drift_record_exceeds_mean_plus_3sigma (N nD : Nat)
    (pd : Nat → ProfileDraw) (dd : Nat → DriftDraw) (idsD : Nat → Nat)
    (hpd : ∀ i, 20 ≤ (pd i).avgRaw ∧ (pd i).avgRaw ≤ 500 ∧
      3 / 20 ≤ (pd i).stdFrac ∧ (pd i).stdFrac ≤ 2 / 5)
    (hdd : ∀ k, 7 / 2 ≤ (dd k).sigmaMult ∧ (dd k).sigmaMult ≤ 8)
    (hchoice : ∀ k, (dd k).userChoice < N) :
    ∀ t ∈ inject_behavioral_drift (generate_user_profiles N pd) nD dd idsD,
      ((generate_user_profiles N pd).getD t.user_id default).avg_amount
        + 3 * ((generate_user_profiles N pd).getD t.user_id default).std_amount
        < t.amount := by
  intro t ht
  unfold inject_behavioral_drift at ht
  rw [List.mem_map] at ht
  obtain ⟨k, _, rfl⟩ := ht
  have hup : (generate_user_profiles N pd).getD (dd k).userChoice default
      = mkProfile (dd k).userChoice (pd (dd k).userChoice) :=
    generate_user_profiles_getD N _ pd (hchoice k)
  have hup2 : (generate_user_profiles N pd)[(dd k).userChoice]?.getD default
      = mkProfile (dd k).userChoice (pd (dd k).userChoice) := by
    rw [← List.getD_eq_getElem?_getD]
    exact hup
  have huid :
      (mkDriftTxn (generate_user_profiles N pd) (idsD k) (dd k)).user_id
        = (dd k).userChoice := by
    simp [mkDriftTxn, hup2, mkProfile]
  rw [huid, hup]
  have hamt :
      (mkDriftTxn (generate_user_profiles N pd) (idsD k) (dd k)).amount
        = max (round2 ((mkProfile (dd k).userChoice
              (pd (dd k).userChoice)).avg_amount
            + (dd k).sigmaMult * (mkProfile (dd k).userChoice
              (pd (dd k).userChoice)).std_amount)) 500 := by
    simp [mkDriftTxn, hup2]
  rw [hamt]
  simp only [mkProfile]
  exact drift_amount_core _ _ _ (hpd _).1 (hpd _).2.2.1 (hdd _).1

/-- C1 witness: a concrete one-user, one-record instantiation. -/
theorem drift_record_exceeds_witness :
    ((20 : ℚ) ≤ 20 ∧ (20 : ℚ) ≤ 500 ∧ (3:ℚ) / 20 ≤ 3 / 20 ∧
      (3:ℚ) / 20 ≤ 2 / 5) ∧ ((7:ℚ) / 2 ≤ 7 / 2 ∧ (7:ℚ) / 2 ≤ 8) ∧
      (0 < 1) ∧
    (∀ t ∈ inject_behavioral_drift
        (generate_user_profiles 1 (fun _ => ⟨0, 20, 3 / 20⟩)) 1
        (fun _ => ⟨0, 7 / 2, 0, 0, 0, 0, 0⟩) (fun _ => 0),
      ((generate_user_profiles 1
          (fun _ => ⟨0, 20, 3 / 20⟩)).getD t.user_id default).avg_amount
        + 3 * ((generate_user_profiles 1
          (fun _ => ⟨0, 20, 3 / 20⟩)).getD t.user_id default).std_amount
        < t.amount) :=
  ⟨⟨le_refl _, by norm_num, le_refl _, by norm_num⟩,
   ⟨le_refl _, by norm_num⟩, Nat.one_pos,
   drift_record_exceeds_mean_plus_3sigma 1 1 _ _ _
    (fun _ => ⟨le_refl _, by norm_num, le_refl _, by norm_num⟩)
    (fun _ => ⟨le_refl _, by norm_num⟩) (fun _ => Nat.one_pos)⟩

/-! ## Assembler lemmas: sorting and shuffling -/

theorem keyLE_antisymm_fields {a b : Txn} (h1 : KeyLE a b) (h2 : KeyLE b a) :
    a.user_id = b.user_id ∧ a.timestamp = b.timestamp := by
  unfold KeyLE at h1 h2
  omega

theorem keyLE_refl (a : Txn) : KeyLE a a := Or.inr ⟨rfl, le_refl _⟩

theorem sortByKey_perm (l : List Txn) : List.Perm (sortByKey l) l :=
  List.perm_insertionSort _ _

theorem sortByKey_sorted (l : List Txn) : List.Sorted KeyLE (sortByKey l) :=
  List.sorted_insertionSort _ _

theorem mem_of_mem_permuteIdx {t : Txn} {sel : List Nat} {l : List Txn}
    (h : t ∈ permuteIdx sel l) : t ∈ l := by
  unfold permuteIdx at h
  rw [List.mem_filterMap] at h
  obtain ⟨i, _, hi⟩ := h
  exact List.getElem?_mem hi

theorem map_getD_range (l : List Txn) :
    (List.range l.length).map (fun i => l.getD i default) = l := by
  apply List.ext_getElem (by simp)
  intro i h1 h2
  simp only [List.getElem_map, List.getElem_range,
    List.getD_eq_getElem?_getD, List.getElem?_eq_getElem h2, Option.getD_some]

theorem permuteIdx_eq_map {sel : List Nat} {l : List Txn}
    (h : ∀ i ∈ sel, i < l.length) :
    permuteIdx sel l = sel.map (fun i => l.getD i default) := by
  induction sel with
  | nil => rfl
  | cons a s ih =>
    have ha := h a (List.mem_cons_self a s)
    have hs : ∀ i ∈ s, i < l.length := fun i hi =>
      h i (List.mem_cons_of_mem a hi)
    unfold permuteIdx at *
    rw [List.filterMap_cons, List.getElem?_eq_getElem ha, List.map_cons,
      ih hs, List.getD_eq_getElem?_getD, List.getElem?_eq_getElem ha]
    rfl

theorem permuteIdx_perm {sel : List Nat} {l : List Txn}
    (h : List.Perm sel (List.range l.length)) :
    List.Perm (permuteIdx sel l) l := by
  have hlt : ∀ i ∈ sel, i < l.length := fun i hi =>
    List.mem_range.mp (h.mem_iff.mp hi)
  rw [permuteIdx_eq_map hlt]
  have hm := h.map (fun i => l.getD i default)
  rw [map_getD_range] at hm
  exact hm

theorem permuteIdx_map (f : Txn → Txn) (sel : List Nat) (l : List Txn) :
    permuteIdx sel (l.map f) = (permuteIdx sel l).map f := by
  unfold permuteIdx
  rw [List.map_filterMap]
  apply List.filterMap_congr
  intro i _
  rw [List.getElem?_map]

/-- Two sorted lists that are permutations of each other and whose
`(user_id, timestamp)` keys identify records uniquely are equal: the
canonical output order is a pure function of the keys. -/
theorem sorted_unique : ∀ (l₁ l₂ : List Txn), List.Perm l₁ l₂ →
    List.Sorted KeyLE l₁ → List.Sorted KeyLE l₂ →
    (∀ a ∈ l₁, ∀ b ∈ l₁, sortKey a = sortKey b → a = b) → l₁ = l₂
  | [], l₂, hp, _, _, _ => hp.nil_eq
  | a :: t₁, [], hp, _, _, _ => by
    exact absurd hp.symm.nil_eq (by simp)
  | a :: t₁, b :: t₂, hp, hs₁, hs₂, hinj => by
    have hbmem : b ∈ a :: t₁ := hp.symm.subset (List.mem_cons_self b t₂)
    have hamem : a ∈ b :: t₂ := hp.subset (List.mem_cons_self a t₁)
    have hab : KeyLE a b := by
      rcases List.mem_cons.mp hbmem with h | h
      · exact h ▸ keyLE_refl a
      · exact List.rel_of_sorted_cons hs₁ b h
    have hba : KeyLE b a := by
      rcases List.mem_cons.mp hamem with h | h
      · exact h ▸ keyLE_refl b
      · exact List.rel_of_sorted_cons hs₂ a h
    have hkey : sortKey a = sortKey b := by
      obtain ⟨h1, h2⟩ := keyLE_antisymm_fields hab hba
      unfold sortKey
      rw [h1, h2]
    have hEq : a = b :=
      hinj a (List.mem_cons_self a t₁) b hbmem hkey
    subst hEq
    have ht : t₁ = t₂ :=
      sorted_unique t₁ t₂ hp.cons_inv hs₁.of_cons hs₂.of_cons
        (fun x hx y hy => hinj x (List.mem_cons_of_mem a hx)
          y (List.mem_cons_of_mem a hy))
    rw [ht]

/-- Sorting commutes with any record map that preserves the sort key. -/
theorem sortByKey_map (f : Txn → Txn)
    (hf : ∀ t, (f t).user_id = t.user_id ∧ (f t).timestamp = t.timestamp)
    (l : List Txn) : (sortByKey l).map f = sortByKey (l.map f) := by
  unfold sortByKey
  exact List.map_insertionSort KeyLE KeyLE f l (fun a _ b _ => by
    unfold KeyLE
    rw [(hf a).1, (hf a).2, (hf b).1, (hf b).2])

/-! ## Claim C2 — assembler: multiset preservation and order canonicity -/

/-- C2 counterexample: two records sharing a `(user_id, timestamp)` key;
shuffle-then-sort and sort-without-shuffle give different final
sequences, so with tied keys the final order is not a pure function of
the keys. -/
theorem assembler_shuffle_order_cex :
    List.Perm [1, 0] (List.range ([cexA, cexB] : List Txn).length) ∧
    cexA.user_id = cexB.user_id ∧ cexA.timestamp = cexB.timestamp ∧
    List.Perm (sortByKey (permuteIdx [1, 0] [cexA, cexB])) [cexA, cexB] ∧
    sortByKey (permuteIdx [1, 0] [cexA, cexB]) ≠ sortByKey [cexA, cexB] := by
  refine ⟨by decide, rfl, rfl,
    (sortByKey_perm _).trans (permuteIdx_perm (by decide)), ?_⟩
  have h1 : permuteIdx [1, 0] [cexA, cexB] = [cexB, cexA] := rfl
  have h2 : sortByKey [cexB, cexA] = [cexB, cexA] := by
    unfold sortByKey cexA cexB
    rfl
  have h3 : sortByKey [cexA, cexB] = [cexA, cexB] := by
    unfold sortByKey cexA cexB
    rfl
  rw [h1, h2, h3]
  intro h
  exact absurd (List.head_eq_of_cons_eq h) (by decide)

/-- C2 (amended). The assembler's output is always a permutation of the
concatenated input streams (no loss, no duplication); and whenever the
`(user_id, timestamp)` keys identify records uniquely, shuffle-then-sort
equals sort-without-shuffle, i.e. the final order is a pure function of
the keys. -/
theorem assembler_multiset_and_canonical_order
    (legit imp vel drift : List Txn) (sel : List Nat)
    (hsel : List.Perm sel
      (List.range (legit ++ imp ++ vel ++ drift).length)) :
    List.Perm (sortByKey (permuteIdx sel (legit ++ imp ++ vel ++ drift)))
      (legit ++ imp ++ vel ++ drift)
    ∧ ((∀ a ∈ legit ++ imp ++ vel ++ drift,
          ∀ b ∈ legit ++ imp ++ vel ++ drift, sortKey a = sortKey b → a = b) →
        sortByKey (permuteIdx sel (legit ++ imp ++ vel ++ drift))
          = sortByKey (legit ++ imp ++ vel ++ drift)) := by
  have hperm : List.Perm
      (sortByKey (permuteIdx sel (legit ++ imp ++ vel ++ drift)))
      (legit ++ imp ++ vel ++ drift) :=
    (sortByKey_perm _).trans (permuteIdx_perm hsel)
  refine ⟨hperm, fun hinj => ?_⟩
  apply sorted_unique _ _ (hperm.trans (sortByKey_perm _).symm)
    (sortByKey_sorted _) (sortByKey_sorted _)
  intro a ha b hb
  exact hinj a (hperm.subset ha) b (hperm.subset hb)

/-- C2 witness: concrete instantiation with a one-record stream and the
identity shuffle. -/
theorem assembler_multiset_witness :
    List.Perm [0]
      (List.range (([cexA] ++ [] ++ [] ++ ([] : List Txn)).length)) ∧
    (List.Perm (sortByKey (permuteIdx [0] ([cexA] ++ [] ++ [] ++ [])))
        ([cexA] ++ [] ++ [] ++ [])
      ∧ ((∀ a ∈ [cexA] ++ [] ++ [] ++ ([] : List Txn),
            ∀ b ∈ [cexA] ++ [] ++ [] ++ ([] : List Txn),
            sortKey a = sortKey b → a = b) →
          sortByKey (permuteIdx [0] ([cexA] ++ [] ++ [] ++ []))
            = sortByKey ([cexA] ++ [] ++ [] ++ []))) :=
  ⟨by decide,
   assembler_multiset_and_canonical_order [cexA] [] [] [] [0] (by decide)⟩

/-! ## Claim C3 — reproducibility from the seeded draws alone -/

theorem map_eraseId_legit (users : List Profile) (n : Nat)
    (d : Nat → LegitDraw) (ids1 ids2 : Nat → Nat) :
    (generate_legitimate_transactions users n d ids1).map eraseId
      = (generate_legitimate_transactions users n d ids2).map eraseId := by
  unfold generate_legitimate_transactions
  rw [List.map_map, List.map_map]
  exact List.map_congr_left (fun j _ => rfl)

theorem map_eraseId_travel (users : List Profile) (n : Nat)
    (d : Nat → TravelDraw) (ids1 ids2 : Nat → Nat) :
    (inject_impossible_travel users n d ids1).map eraseId
      = (inject_impossible_travel users n d ids2).map eraseId := by
  unfold inject_impossible_travel
  rw [List.map_flatMap, List.map_flatMap]
  apply List.flatMap_congr
  intro k _
  rfl

theorem map_eraseId_spike (users : List Profile) (n : Nat)
    (sel : Nat → Nat) (d : Nat → SpikeDraw) (ids1 ids2 : Nat → Nat → Nat) :
    (inject_velocity_spikes users n sel d ids1).map eraseId
      = (inject_velocity_spikes users n sel d ids2).map eraseId := by
  unfold inject_velocity_spikes
  rw [List.map_flatMap, List.map_flatMap]
  apply List.flatMap_congr
  intro k _
  unfold spikeBurst
  rw [List.map_map, List.map_map]
  exact List.map_congr_left (fun i _ => rfl)

theorem map_eraseId_drift (users : List Profile) (n : Nat)
    (d : Nat → DriftDraw) (ids1 ids2 : Nat → Nat) :
    (inject_behavioral_drift users n d ids1).map eraseId
      = (inject_behavioral_drift users n d ids2).map eraseId := by
  unfold inject_behavioral_drift
  rw [List.map_map, List.map_map]
  exact List.map_congr_left (fun k _ => rfl)

theorem map_eraseId_assembled (c : Counts) (d : Draws) (ids1 ids2 : Ids) :
    (assembled c d ids1).map eraseId = (assembled c d ids2).map eraseId := by
  unfold assembled
  simp only [List.map_append]
  rw [map_eraseId_legit _ _ _ ids1.legit ids2.legit,
    map_eraseId_travel _ _ _ ids1.travel ids2.travel,
    map_eraseId_spike _ _ _ _ ids1.spike ids2.spike,
    map_eraseId_drift _ _ _ ids1.drift ids2.drift]

/-- C3. Two runs with the same seeded draws (`Draws`: every `random`,
`np.random` and Faker consumption, including the shuffle permutation)
and the same target counts agree on everything except the unseeded
`uuid4` transaction identifiers: the outputs are pointwise equal after
erasing identifiers — in particular the ordered sequence of
`(user, timestamp, amount, archetype)` tuples, the total record count
and the fraud record count all coincide. -/
theorem pipeline_reproducible (c : Counts) (d : Draws) (ids1 ids2 : Ids) :
    (main_pipeline c d ids1).map eraseId
      = (main_pipeline c d ids2).map eraseId
    ∧ (main_pipeline c d ids1).map
        (fun t => (t.user_id, t.timestamp, t.amount, t.fraud_type))
      = (main_pipeline c d ids2).map
        (fun t => (t.user_id, t.timestamp, t.amount, t.fraud_type))
    ∧ (main_pipeline c d ids1).length = (main_pipeline c d ids2).length
    ∧ (main_pipeline c d ids1).countP (fun t => t.is_fraud)
      = (main_pipeline c d ids2).countP (fun t => t.is_fraud) := by
  have hkey : ∀ t : Txn, (eraseId t).user_id = t.user_id
      ∧ (eraseId t).timestamp = t.timestamp := fun t => ⟨rfl, rfl⟩
  have hmain : (main_pipeline c d ids1).map eraseId
      = (main_pipeline c d ids2).map eraseId := by
    unfold main_pipeline
    rw [sortByKey_map eraseId hkey, sortByKey_map eraseId hkey,
      ← permuteIdx_map, ← permuteIdx_map, map_eraseId_assembled]
  have hfac : ∀ l : List Txn,
      l.map (fun t => (t.user_id, t.timestamp, t.amount, t.fraud_type))
        = (l.map eraseId).map
            (fun t => (t.user_id, t.timestamp, t.amount, t.fraud_type)) := by
    intro l
    rw [List.map_map]
    rfl
  refine ⟨hmain, ?_, ?_, ?_⟩
  · rw [hfac (main_pipeline c d ids1), hfac (main_pipeline c d ids2), hmain]
  · have h := congrArg List.length hmain
    rwa [List.length_map, List.length_map] at h
  · have h := congrArg (List.countP (fun t => t.is_fraud)) hmain
    rwa [List.countP_map, List.countP_map] at h

/-! ## Claim C4 — record counts -/

theorem legit_length (users : List Profile) (n : Nat) (d : Nat → LegitDraw)
    (ids : Nat → Nat) :
    (generate_legitimate_transactions users n d ids).length = n := by
  simp [generate_legitimate_transactions]

theorem travel_length (users : List Profile) (n : Nat) (d : Nat → TravelDraw)
    (ids : Nat → Nat) :
    (inject_impossible_travel users n d ids).length
      = 2 * min n users.length := by
  unfold inject_impossible_travel
  rw [List.length_flatMap]
  have h : (List.range (min n users.length)).map
      (List.length ∘ fun k => travelPair users (d k) (ids (2 * k)) (ids (2 * k + 1)))
      = (List.range (min n users.length)).map (fun _ => 2) :=
    List.map_congr_left (fun k _ => rfl)
  rw [h, List.map_const', List.sum_replicate, List.length_range, smul_eq_mul]
  omega

theorem spike_length (users : List Profile) (n : Nat) (sel : Nat → Nat)
    (d : Nat → SpikeDraw) (ids : Nat → Nat → Nat) :
    (inject_velocity_spikes users n sel d ids).length
      = ((List.range (min n users.length)).map
          (fun k => (d k).nMicro)).sum := by
  unfold inject_velocity_spikes
  rw [List.length_flatMap]
  congr 1
  apply List.map_congr_left
  intro k _
  simp [spikeBurst]

theorem drift_length (users : List Profile) (n : Nat) (d : Nat → DriftDraw)
    (ids : Nat → Nat) :
    (inject_behavioral_drift users n d ids).length
      = min n users.length := by
  simp [inject_behavioral_drift]

theorem assembled_length (c : Counts) (d : Draws) (ids : Ids) :
    (assembled c d ids).length
      = c.nTxns + 2 * min c.nPairs c.nUsers
        + ((List.range (min c.nSpikeUsers c.nUsers)).map
            (fun k => (d.spikeD k).nMicro)).sum
        + min c.nDrift c.nUsers := by
  unfold assembled
  rw [List.length_append, List.length_append, List.length_append,
    legit_length, travel_length, spike_length, drift_length,
    generate_user_profiles_length]

/-- C4 counterexample: with a population of 1 user and a target of 2
impossible-travel pairs (2 drift records), the injectors emit
`2 * min 2 1 = 2` (resp. `min 2 1 = 1`) records, not `2 * 2` (resp. 2):
the claimed exact contribution fails whenever a target count exceeds the
population size. -/
theorem injector_count_cex :
    (inject_impossible_travel (generate_user_profiles 1 (fun _ => exProfileDraw))
        2 (fun _ => exTravelDraw) (fun _ => 0)).length ≠ 2 * 2
    ∧ (inject_behavioral_drift (generate_user_profiles 1 (fun _ => exProfileDraw))
        2 (fun _ => exDriftDraw) (fun _ => 0)).length ≠ 2 := by
  rw [travel_length, drift_length, generate_user_profiles_length]
  omega

/-- C4 (amended). When every per-archetype target count is at most the
population size (which is where the claimed formula can hold at all —
the source caps each injector's trials at `min(count, len(users))`), the
assembled output has exactly
`M + 2*P + (sum of the U burst sizes) + D` records, the travel injector
contributes exactly `2*P` records and the drift injector exactly `D`;
with burst-size draws in `randint(10, 20)`'s range the velocity sum lies
between `10*U` and `20*U`. -/
theorem output_count_exact (c : Counts) (d : Draws) (ids : Ids)
    (hP : c.nPairs ≤ c.nUsers) (hU : c.nSpikeUsers ≤ c.nUsers)
    (hD : c.nDrift ≤ c.nUsers)
    (hn : ∀ k, 10 ≤ (d.spikeD k).nMicro ∧ (d.spikeD k).nMicro ≤ 20)
    (hsel : List.Perm d.shuffleSel (List.range (assembled c d ids).length)) :
    (main_pipeline c d ids).length
      = c.nTxns + 2 * c.nPairs
        + ((List.range c.nSpikeUsers).map (fun k => (d.spikeD k).nMicro)).sum
        + c.nDrift
    ∧ (inject_impossible_travel (generate_user_profiles c.nUsers d.profileD)
        c.nPairs d.travelD ids.travel).length = 2 * c.nPairs
    ∧ (inject_behavioral_drift (generate_user_profiles c.nUsers d.profileD)
        c.nDrift d.driftD ids.drift).length = c.nDrift
    ∧ 10 * c.nSpikeUsers
        ≤ ((List.range c.nSpikeUsers).map (fun k => (d.spikeD k).nMicro)).sum
    ∧ ((List.range c.nSpikeUsers).map (fun k => (d.spikeD k).nMicro)).sum
        ≤ 20 * c.nSpikeUsers := by
  have hlen : (main_pipeline c d ids).length = (assembled c d ids).length :=
    ((sortByKey_perm _).trans (permuteIdx_perm hsel)).length_eq
  have hminP : min c.nPairs c.nUsers = c.nPairs := Nat.min_eq_left hP
  have hminU : min c.nSpikeUsers c.nUsers = c.nSpikeUsers := Nat.min_eq_left hU
  have hminD : min c.nDrift c.nUsers = c.nDrift := Nat.min_eq_left hD
  have hsum_le : ((List.range c.nSpikeUsers).map
      (fun k => (d.spikeD k).nMicro)).sum ≤ 20 * c.nSpikeUsers := by
    have h := List.sum_le_card_nsmul
      ((List.range c.nSpikeUsers).map (fun k => (d.spikeD k).nMicro)) 20
      (by
        intro x hx
        rw [List.mem_map] at hx
        obtain ⟨k, _, rfl⟩ := hx
        exact (hn k).2)
    rwa [List.length_map, List.length_range, smul_eq_mul, mul_comm] at h
  have hsum_ge : 10 * c.nSpikeUsers ≤ ((List.range c.nSpikeUsers).map
      (fun k => (d.spikeD k).nMicro)).sum := by
    have h := List.card_nsmul_le_sum
      ((List.range c.nSpikeUsers).map (fun k => (d.spikeD k).nMicro)) 10
      (by
        intro x hx
        rw [List.mem_map] at hx
        obtain ⟨k, _, rfl⟩ := hx
        exact (hn k).1)
    rwa [List.length_map, List.length_range, smul_eq_mul, mul_comm] at h
  refine ⟨?_, ?_, ?_, hsum_ge, hsum_le⟩
  · rw [hlen, assembled_length, hminP, hminU, hminD]
  · rw [travel_length, generate_user_profiles_length, hminP]
  · rw [drift_length, generate_user_profiles_length, hminD]

/-- C4 witness: population 1, one legitimate record, one travel pair,
one 10-record burst, one drift record, identity shuffle on the 14
records. -/
theorem output_count_witness :
    (1 ≤ 1 ∧ 1 ≤ 1 ∧ 1 ≤ 1) ∧
    (∀ k : Nat, 10 ≤ ((exDraws (List.range 14)).spikeD k).nMicro
      ∧ ((exDraws (List.range 14)).spikeD k).nMicro ≤ 20) ∧
    List.Perm (exDraws (List.range 14)).shuffleSel
      (List.range (assembled ⟨1, 1, 1, 1, 1⟩ (exDraws (List.range 14)) exIds).length) ∧
    (main_pipeline ⟨1, 1, 1, 1, 1⟩ (exDraws (List.range 14)) exIds).length
      = 1 + 2 * 1
        + ((List.range 1).map
            (fun k => ((exDraws (List.range 14)).spikeD k).nMicro)).sum
        + 1 :=
  ⟨⟨le_refl 1, le_refl 1, le_refl 1⟩,
   by
    intro k
    exact ⟨Nat.le_refl 10, show (10:Nat) ≤ 20 by norm_num⟩,
   by
    have h : (assembled ⟨1, 1, 1, 1, 1⟩ (exDraws (List.range 14)) exIds).length
        = 14 := by
      rw [assembled_length]
      decide
    rw [h]
    exact List.Perm.refl _,
   (output_count_exact ⟨1, 1, 1, 1, 1⟩ (exDraws (List.range 14)) exIds
      (le_refl 1) (le_refl 1) (le_refl 1)
      (by
        intro k
        exact ⟨Nat.le_refl 10, show (10:Nat) ≤ 20 by norm_num⟩)
      (by
        have h : (assembled ⟨1, 1, 1, 1, 1⟩ (exDraws (List.range 14)) exIds).length
            = 14 := by
          rw [assembled_length]
          decide
        rw [h]
        exact List.Perm.refl _)).1⟩

/-! ## Claim C5 — velocity-spike bursts -/

theorem spikeBurst_length (users : List Profile) (u : Nat) (d : SpikeDraw)
    (idk : Nat → Nat) : (spikeBurst users u d idk).length = d.nMicro := by
  simp [spikeBurst]

theorem mem_spikeBurst {t : Txn} {users : List Profile} {u : Nat}
    {d : SpikeDraw} {idk : Nat → Nat} (h : t ∈ spikeBurst users u d idk) :
    ∃ i, i < d.nMicro ∧ t = mkSpikeTxn users u (idk i) d i := by
  unfold spikeBurst at h
  rw [List.mem_map] at h
  obtain ⟨i, hi, rfl⟩ := h
  exact ⟨i, List.mem_range.mp hi, rfl⟩

/-- C5. The velocity-spike injector emits one burst per selected user
(selection without replacement: `sel` injective on the selected range);
every burst has between 10 and 20 records, all carrying the selected
user's identifier, all timestamps offset 0–55 seconds from the burst's
base timestamp — hence any two records of a burst are strictly less
than 60 seconds apart — and distinct bursts belong to distinct users. -/
theorem velocity_burst_properties (N U : Nat) (pd : Nat → ProfileDraw)
    (sel : Nat → Nat) (sd : Nat → SpikeDraw) (ids : Nat → Nat → Nat)
    (hsel_lt : ∀ k, k < min U N → sel k < N)
    (hsel_inj : ∀ k₁, k₁ < min U N → ∀ k₂, k₂ < min U N →
      sel k₁ = sel k₂ → k₁ = k₂)
    (hn : ∀ k, 10 ≤ (sd k).nMicro ∧ (sd k).nMicro ≤ 20)
    (hoff : ∀ k i, (sd k).offs i ≤ 55) :
    inject_velocity_spikes (generate_user_profiles N pd) U sel sd ids
      = (List.range (min U N)).flatMap
          (fun k => spikeBurst (generate_user_profiles N pd) (sel k) (sd k)
            (ids k))
    ∧ (∀ k, k < min U N →
        (10 ≤ (spikeBurst (generate_user_profiles N pd) (sel k) (sd k)
            (ids k)).length
          ∧ (spikeBurst (generate_user_profiles N pd) (sel k) (sd k)
            (ids k)).length ≤ 20)
        ∧ (∀ t ∈ spikeBurst (generate_user_profiles N pd) (sel k) (sd k)
            (ids k), t.user_id = sel k)
        ∧ (∀ t ∈ spikeBurst (generate_user_profiles N pd) (sel k) (sd k)
            (ids k), (sd k).baseOffset ≤ t.timestamp
            ∧ t.timestamp ≤ (sd k).baseOffset + 55)
        ∧ (∀ t₁ ∈ spikeBurst (generate_user_profiles N pd) (sel k) (sd k)
            (ids k), ∀ t₂ ∈ spikeBurst (generate_user_profiles N pd)
            (sel k) (sd k) (ids k), t₁.timestamp < t₂.timestamp + 60))
    ∧ (∀ k₁, k₁ < min U N → ∀ k₂, k₂ < min U N → k₁ ≠ k₂ →
        ∀ t₁ ∈ spikeBurst (generate_user_profiles N pd) (sel k₁) (sd k₁)
          (ids k₁),
        ∀ t₂ ∈ spikeBurst (generate_user_profiles N pd) (sel k₂) (sd k₂)
          (ids k₂), t₁.user_id ≠ t₂.user_id) := by
  have huid : ∀ k, k < min U N →
      ∀ t ∈ spikeBurst (generate_user_profiles N pd) (sel k) (sd k) (ids k),
        t.user_id = sel k := by
    intro k hk t ht
    obtain ⟨i, _, rfl⟩ := mem_spikeBurst ht
    show ((generate_user_profiles N pd).getD (sel k) default).user_id = sel k
    rw [generate_user_profiles_getD N (sel k) pd (hsel_lt k hk)]
    rfl
  have hts : ∀ k, ∀ t ∈ spikeBurst (generate_user_profiles N pd) (sel k)
      (sd k) (ids k), (sd k).baseOffset ≤ t.timestamp
      ∧ t.timestamp ≤ (sd k).baseOffset + 55 := by
    intro k t ht
    obtain ⟨i, _, rfl⟩ := mem_spikeBurst ht
    show (sd k).baseOffset ≤ (sd k).baseOffset + (sd k).offs i
      ∧ (sd k).baseOffset + (sd k).offs i ≤ (sd k).baseOffset + 55
    have := hoff k i
    omega
  refine ⟨?_, ?_, ?_⟩
  · unfold inject_velocity_spikes
    rw [generate_user_profiles_length]
  · intro k hk
    refine ⟨?_, huid k hk, hts k, ?_⟩
    · rw [spikeBurst_length]
      exact hn k
    · intro t₁ h₁ t₂ h₂
      have b₁ := hts k t₁ h₁
      have b₂ := hts k t₂ h₂
      omega
  · intro k₁ hk₁ k₂ hk₂ hne t₁ h₁ t₂ h₂
    rw [huid k₁ hk₁ t₁ h₁, huid k₂ hk₂ t₂ h₂]
    intro hEq
    exact hne (hsel_inj k₁ hk₁ k₂ hk₂ hEq)

/-- C5 witness: population 1, one selected user, a 10-record burst with
zero offsets. -/
theorem velocity_burst_witness :
    inject_velocity_spikes (generate_user_profiles 1 (fun _ => exProfileDraw))
        1 (fun _ => 0) (fun _ => exSpikeDraw) (fun _ _ => 0)
      = (List.range (min 1 1)).flatMap
          (fun _ => spikeBurst (generate_user_profiles 1 (fun _ => exProfileDraw))
            0 exSpikeDraw (fun _ => 0))
    ∧ (10 ≤ (spikeBurst (generate_user_profiles 1 (fun _ => exProfileDraw)) 0
        exSpikeDraw (fun _ => 0)).length
      ∧ (spikeBurst (generate_user_profiles 1 (fun _ => exProfileDraw)) 0
        exSpikeDraw (fun _ => 0)).length ≤ 20)
    ∧ (∀ t ∈ spikeBurst (generate_user_profiles 1 (fun _ => exProfileDraw)) 0
        exSpikeDraw (fun _ => 0), t.user_id = 0) := by
  have h := velocity_burst_properties 1 1 (fun _ => exProfileDraw)
    (fun _ => 0) (fun _ => exSpikeDraw) (fun _ _ => 0)
    (fun k hk => Nat.one_pos)
    (fun k₁ hk₁ k₂ hk₂ _ => by omega)
    (fun k => ⟨Nat.le_refl 10, show (10:Nat) ≤ 20 by norm_num⟩)
    (fun k i => Nat.zero_le 55)
  obtain ⟨h1, h2, _⟩ := h
  have h0 := h2 0 (by norm_num)
  exact ⟨h1, h0.1, h0.2.1⟩

/-! ## Claim C6 — impossible-travel pairs -/

/-- C6. With the pair target `P` at most the population size (so the
source's `users.sample(n=min(P, len(users)))` performs exactly `P`
trials), each trial selects one user (with replacement — repeats
allowed) and one catalog pair, and emits exactly two records for that
user, one in each city of the pair, both fraud-flagged with archetype
`impossible_travel`, the second timestamped `gap ∈ [2, 10]` minutes
after the first (so at most 10 minutes apart). -/
theorem travel_pair_properties (N P : Nat) (pd : Nat → ProfileDraw)
    (td : Nat → TravelDraw) (ids : Nat → Nat)
    (hP : P ≤ N)
    (hpair : ∀ k, (td k).pairChoice < DISTANT_PAIRS.length)
    (hgap : ∀ k, 2 ≤ (td k).gapMinutes ∧ (td k).gapMinutes ≤ 10)
    (huser : ∀ k, (td k).userChoice < N) :
    inject_impossible_travel (generate_user_profiles N pd) P td ids
      = (List.range P).flatMap
          (fun k => travelPair (generate_user_profiles N pd) (td k)
            (ids (2 * k)) (ids (2 * k + 1)))
    ∧ ∀ k, k < P →
        ∃ a b, travelPair (generate_user_profiles N pd) (td k)
            (ids (2 * k)) (ids (2 * k + 1)) = [a, b]
          ∧ a.user_id = (td k).userChoice
          ∧ b.user_id = (td k).userChoice
          ∧ DISTANT_PAIRS.getD (td k).pairChoice default ∈ DISTANT_PAIRS
          ∧ a.city = (DISTANT_PAIRS.getD (td k).pairChoice default).1
          ∧ b.city = (DISTANT_PAIRS.getD (td k).pairChoice default).2
          ∧ a.is_fraud = true ∧ b.is_fraud = true
          ∧ a.fraud_type = some FraudType.impossible_travel
          ∧ b.fraud_type = some FraudType.impossible_travel
          ∧ b.timestamp = a.timestamp + (td k).gapMinutes * 60
          ∧ 2 * 60 ≤ (td k).gapMinutes * 60
          ∧ (td k).gapMinutes * 60 ≤ 10 * 60 := by
  constructor
  · unfold inject_impossible_travel
    rw [generate_user_profiles_length, Nat.min_eq_left hP]
  · intro k _
    refine ⟨mkTravelTxn (generate_user_profiles N pd) (ids (2 * k)) (td k) 0,
      mkTravelTxn (generate_user_profiles N pd) (ids (2 * k + 1)) (td k) 1,
      rfl, ?_, ?_, ?_, rfl, rfl, rfl, rfl, rfl, rfl, ?_, ?_, ?_⟩
    · show ((generate_user_profiles N pd).getD (td k).userChoice
        default).user_id = (td k).userChoice
      rw [generate_user_profiles_getD N _ pd (huser k)]
      rfl
    · show ((generate_user_profiles N pd).getD (td k).userChoice
        default).user_id = (td k).userChoice
      rw [generate_user_profiles_getD N _ pd (huser k)]
      rfl
    · rw [List.getD_eq_getElem _ _ (hpair k)]
      exact List.getElem_mem _
    · show (td k).baseOffset + 1 * ((td k).gapMinutes * 60)
        = (td k).baseOffset + 0 * ((td k).gapMinutes * 60)
          + (td k).gapMinutes * 60
      omega
    · have := (hgap k).1
      omega
    · have := (hgap k).2
      omega

/-- C6 witness: one user, one trial, gap of 2 minutes, catalog pair 0. -/
theorem travel_pair_witness :
    ∃ a b, travelPair (generate_user_profiles 1 (fun _ => exProfileDraw))
        exTravelDraw 0 0 = [a, b]
      ∧ a.user_id = exTravelDraw.userChoice
      ∧ b.user_id = exTravelDraw.userChoice
      ∧ DISTANT_PAIRS.getD exTravelDraw.pairChoice default ∈ DISTANT_PAIRS
      ∧ a.city = (DISTANT_PAIRS.getD exTravelDraw.pairChoice default).1
      ∧ b.city = (DISTANT_PAIRS.getD exTravelDraw.pairChoice default).2
      ∧ a.is_fraud = true ∧ b.is_fraud = true
      ∧ a.fraud_type = some FraudType.impossible_travel
      ∧ b.fraud_type = some FraudType.impossible_travel
      ∧ b.timestamp = a.timestamp + exTravelDraw.gapMinutes * 60
      ∧ 2 * 60 ≤ exTravelDraw.gapMinutes * 60
      ∧ exTravelDraw.gapMinutes * 60 ≤ 10 * 60 :=
  (travel_pair_properties 1 1 (fun _ => exProfileDraw)
    (fun _ => exTravelDraw) (fun _ => 0) (le_refl 1)
    (fun _ => show (0:Nat) < 8 by norm_num)
    (fun _ => ⟨le_refl 2, show (2:Nat) ≤ 10 by norm_num⟩)
    (fun _ => Nat.one_pos)).2 0 Nat.one_pos

/-! ## Claim C7 — amount floor and fraud-flag/archetype correspondence -/

theorem mem_assembled_of_mem_main {t : Txn} {c : Counts} {d : Draws}
    {ids : Ids} (h : t ∈ main_pipeline c d ids) : t ∈ assembled c d ids := by
  unfold main_pipeline at h
  exact mem_of_mem_permuteIdx ((sortByKey_perm _).subset h)

/-- C7. With amount draws in the ranges the source uses
(`uniform(10, 2000)` for travel, `uniform(0.01, 2.00)` for spikes),
every record of the assembled/sorted output has amount at least the
positive floor 0.01 (legitimate records are floored at 0.50, travel
at 10, spikes at 0.01, drift at 500), its fraud flag is true exactly
when its archetype tag is one of the three recognized values, and a
false flag forces an absent tag. -/
theorem records_floor_and_flag (c : Counts) (d : Draws) (ids : Ids)
    (hta : ∀ k, 10 ≤ (d.travelD k).amtA ∧ 10 ≤ (d.travelD k).amtB)
    (hsa : ∀ k i, 1 / 100 ≤ (d.spikeD k).amts i) :
    ∀ t ∈ main_pipeline c d ids,
      1 / 100 ≤ t.amount
      ∧ (t.is_fraud = true ↔
          (t.fraud_type = some FraudType.impossible_travel
            ∨ t.fraud_type = some FraudType.velocity_spike
            ∨ t.fraud_type = some FraudType.behavioral_drift))
      ∧ (t.is_fraud = false → t.fraud_type = none) := by
  intro t ht
  have h10 : round2 (10 : ℚ) = 10 := by
    have h := round2_div_cast 1000
    norm_num at h
    exact h
  have h001 : round2 ((1 : ℚ) / 100) = 1 / 100 := by
    have h := round2_div_cast 1
    norm_num at h
    exact h
  have h := mem_assembled_of_mem_main ht
  unfold assembled at h
  simp only [List.append_assoc] at h
  rcases List.mem_append.mp h with h | h
  · -- legitimate
    unfold generate_legitimate_transactions at h
    rw [List.mem_map] at h
    obtain ⟨j, _, rfl⟩ := h
    refine ⟨?_, by simp [mkLegitTxn], fun _ => rfl⟩
    show (1 : ℚ) / 100 ≤ max (1 / 2) (round2 ((d.legitD j).amtRaw))
    exact le_trans (by norm_num) (le_max_left _ _)
  rcases List.mem_append.mp h with h | h
  · -- impossible travel
    unfold inject_impossible_travel at h
    rw [List.mem_flatMap] at h
    obtain ⟨k, _, hmem⟩ := h
    have hcase := List.mem_cons.mp hmem
    rcases hcase with rfl | hcase
    · refine ⟨?_, by simp [mkTravelTxn], ?_⟩
      · show (1 : ℚ) / 100 ≤ round2 ((d.travelD k).amtA)
        have := h10 ▸ round2_mono (hta k).1
        linarith
      · intro hfalse
        exact absurd hfalse (by simp [mkTravelTxn])
    rcases List.mem_singleton.mp hcase with rfl
    refine ⟨?_, by simp [mkTravelTxn], ?_⟩
    · show (1 : ℚ) / 100 ≤ round2 ((d.travelD k).amtB)
      have := h10 ▸ round2_mono (hta k).2
      linarith
    · intro hfalse
      exact absurd hfalse (by simp [mkTravelTxn])
  rcases List.mem_append.mp h with h | h
  · -- velocity spike
    unfold inject_velocity_spikes at h
    rw [List.mem_flatMap] at h
    obtain ⟨k, _, hmem⟩ := h
    obtain ⟨i, _, rfl⟩ := mem_spikeBurst hmem
    refine ⟨?_, by simp [mkSpikeTxn], ?_⟩
    · show (1 : ℚ) / 100 ≤ round2 ((d.spikeD k).amts i)
      have := h001 ▸ round2_mono (hsa k i)
      linarith
    · intro hfalse
      exact absurd hfalse (by simp [mkSpikeTxn])
  · -- behavioral drift
    unfold inject_behavioral_drift at h
    rw [List.mem_map] at h
    obtain ⟨k, _, rfl⟩ := h
    refine ⟨?_, by simp [mkDriftTxn], ?_⟩
    · show (1 : ℚ) / 100 ≤ max (round2 _) 500
      exact le_trans (by norm_num) (le_max_right _ _)
    · intro hfalse
      exact absurd hfalse (by simp [mkDriftTxn])

/-- C7 witness: the 14-record concrete pipeline run. -/
theorem records_floor_and_flag_witness :
    ((10 : ℚ) ≤ exTravelDraw.amtA ∧ (10 : ℚ) ≤ exTravelDraw.amtB) ∧
    (∀ t ∈ main_pipeline ⟨1, 1, 1, 1, 1⟩ (exDraws (List.range 14)) exIds,
      1 / 100 ≤ t.amount
      ∧ (t.is_fraud = true ↔
          (t.fraud_type = some FraudType.impossible_travel
            ∨ t.fraud_type = some FraudType.velocity_spike
            ∨ t.fraud_type = some FraudType.behavioral_drift))
      ∧ (t.is_fraud = false → t.fraud_type = none)) :=
  ⟨⟨le_refl 10, le_refl 10⟩,
   records_floor_and_flag ⟨1, 1, 1, 1, 1⟩ (exDraws (List.range 14)) exIds
    (fun _ => ⟨le_refl 10, le_refl 10⟩)
    (fun _ _ => le_refl (1 / 100))⟩

/-! ## Claim C8 — profile population shape and spend-parameter band -/

/-- C8 counterexample: with the in-range draws `uniform(20,500) = 20.03`
and `uniform(0.15,0.40) = 0.15`, the stored standard deviation is
`round(20.03 * 0.15, 2) = round(3.0045, 2) = 3.00 < 0.15 * 20.03`, so
the strict band `std ∈ (0.15, 0.40) × avg` fails (2-decimal rounding can
cross the open bounds). -/
theorem profiles_strict_band_cex :
    ((20 : ℚ) ≤ 2003 / 100 ∧ (2003 : ℚ) / 100 ≤ 500
      ∧ (3 : ℚ) / 20 ≤ 3 / 20 ∧ (3 : ℚ) / 20 ≤ 2 / 5) ∧
    ¬ (3 / 20 * ((generate_user_profiles 1
          (fun _ => ⟨0, 2003 / 100, 3 / 20⟩)).getD 0 default).avg_amount
        < ((generate_user_profiles 1
          (fun _ => ⟨0, 2003 / 100, 3 / 20⟩)).getD 0 default).std_amount) := by
  constructor
  · exact ⟨by norm_num, by norm_num, le_refl _, by norm_num⟩
  · rw [generate_user_profiles_getD 1 0 _ Nat.one_pos]
    have havg : round2 ((2003 : ℚ) / 100) = 2003 / 100 := by
      have h := round2_div_cast 2003
      norm_num at h
      exact h
    have hstd : round2 ((2003 : ℚ) / 100 * (3 / 20)) = 3 := by
      rw [show (2003 : ℚ) / 100 * (3 / 20) = 6009 / 2000 by norm_num,
        round2_eval (6009 / 2000) 300 (by norm_num) (by norm_num)]
      norm_num
    show ¬ (3 / 20 * round2 ((2003 : ℚ) / 100)
      < round2 (round2 ((2003 : ℚ) / 100) * (3 / 20)))
    rw [havg, hstd]
    norm_num

/-- C8 (amended). For every target size `N`, the profile generator
returns exactly `N` profiles whose identifiers are the naturals
`0, ..., N-1` in order (unique, sequential, stable; rendered
`USR-%06d` in the source); every profile has `avg_amount > 0` and a
positive `std_amount` lying within the rounded band
`(0.15 * avg - 0.005, 0.40 * avg + 0.005]` — the strict open band of
the claim can be crossed by at most the half-cent rounding error. -/
theorem profiles_well_formed (N : Nat) (pd : Nat → ProfileDraw)
    (hpd : ∀ i, 20 ≤ (pd i).avgRaw ∧ (pd i).avgRaw ≤ 500 ∧
      3 / 20 ≤ (pd i).stdFrac ∧ (pd i).stdFrac ≤ 2 / 5) :
    (generate_user_profiles N pd).length = N
    ∧ (generate_user_profiles N pd).map Profile.user_id = List.range N
    ∧ ((generate_user_profiles N pd).map Profile.user_id).Nodup
    ∧ (∀ i, i < N →
        ((generate_user_profiles N pd).getD i default).user_id = i)
    ∧ ∀ p ∈ generate_user_profiles N pd,
        0 < p.avg_amount
        ∧ 0 < p.std_amount
        ∧ 3 / 20 * p.avg_amount - 1 / 200 < p.std_amount
        ∧ p.std_amount ≤ 2 / 5 * p.avg_amount + 1 / 200 := by
  refine ⟨generate_user_profiles_length N pd,
    generate_user_profiles_map_id N pd, ?_, ?_, ?_⟩
  · rw [generate_user_profiles_map_id]
    exact List.nodup_range N
  · intro i hi
    rw [generate_user_profiles_getD N i pd hi]
    rfl
  · intro p hp
    unfold generate_user_profiles at hp
    rw [List.mem_map] at hp
    obtain ⟨i, _, rfl⟩ := hp
    obtain ⟨h1, _, h3, h4⟩ := hpd i
    have h20 : round2 (20 : ℚ) = 20 := by
      have h := round2_div_cast 2000
      norm_num at h
      exact h
    show 0 < round2 (pd i).avgRaw
      ∧ 0 < round2 (round2 (pd i).avgRaw * (pd i).stdFrac)
      ∧ 3 / 20 * round2 (pd i).avgRaw - 1 / 200
          < round2 (round2 (pd i).avgRaw * (pd i).stdFrac)
      ∧ round2 (round2 (pd i).avgRaw * (pd i).stdFrac)
          ≤ 2 / 5 * round2 (pd i).avgRaw + 1 / 200
    set avg := round2 (pd i).avgRaw with havg_def
    set std := round2 (avg * (pd i).stdFrac) with hstd_def
    have havg : (20 : ℚ) ≤ avg := h20 ▸ round2_mono h1
    have havg0 : (0 : ℚ) ≤ avg := by linarith
    have hlo : avg * (3 / 20) ≤ avg * (pd i).stdFrac :=
      mul_le_mul_of_nonneg_left h3 havg0
    have hhi : avg * (pd i).stdFrac ≤ avg * (2 / 5) :=
      mul_le_mul_of_nonneg_left h4 havg0
    have hstd_lo := sub_lt_round2 (avg * (pd i).stdFrac)
    have hstd_hi := round2_le (avg * (pd i).stdFrac)
    have hmul3 : (3 : ℚ) ≤ avg * (pd i).stdFrac := by
      nlinarith [mul_nonneg (by linarith : (0:ℚ) ≤ avg - 20)
        (by linarith : (0:ℚ) ≤ (pd i).stdFrac - 3 / 20)]
    refine ⟨by linarith, by linarith, by linarith, by linarith⟩

/-- C8 witness: a single profile from the draws `avgRaw = 20`,
`stdFrac = 0.15`. -/
theorem profiles_well_formed_witness :
    ((20 : ℚ) ≤ exProfileDraw.avgRaw ∧ exProfileDraw.avgRaw ≤ 500
      ∧ (3 : ℚ) / 20 ≤ exProfileDraw.stdFrac
      ∧ exProfileDraw.stdFrac ≤ 2 / 5) ∧
    ((generate_user_profiles 1 (fun _ => exProfileDraw)).length = 1
      ∧ (generate_user_profiles 1 (fun _ => exProfileDraw)).map
          Profile.user_id = List.range 1
      ∧ ((generate_user_profiles 1 (fun _ => exProfileDraw)).map
          Profile.user_id).Nodup
      ∧ (∀ i, i < 1 → ((generate_user_profiles 1
          (fun _ => exProfileDraw)).getD i default).user_id = i)
      ∧ ∀ p ∈ generate_user_profiles 1 (fun _ => exProfileDraw),
          0 < p.avg_amount
          ∧ 0 < p.std_amount
          ∧ 3 / 20 * p.avg_amount - 1 / 200 < p.std_amount
          ∧ p.std_amount ≤ 2 / 5 * p.avg_amount + 1 / 200) :=
  ⟨⟨le_refl 20, show (20:ℚ) ≤ 500 by norm_num, le_refl _,
    show (3:ℚ) / 20 ≤ 2 / 5 by norm_num⟩,
   profiles_well_formed 1 (fun _ => exProfileDraw)
    (fun _ => ⟨le_refl 20, show (20:ℚ) ≤ 500 by norm_num, le_refl _,
      show (3:ℚ) / 20 ≤ 2 / 5 by norm_num⟩)⟩

/-! ## Claim C9 — configuration validation -/

/-- C9: the source performs no configuration validation at all.  With
the non-positive legitimate target count `NUM_TRANSACTIONS = 0` (and
valid remaining counts) the pipeline does not abort: it runs every
stage and emits the `2 + 10 + 1 = 13` injected records — the claimed
fatal configuration error does not exist in the code.  (The embedding
is total precisely because no generation path of the source raises a
configuration error.) -/
theorem no_abort_on_zero_legit_count :
    (generate_legitimate_transactions
        (generate_user_profiles 1 (fun _ => exProfileDraw)) 0
        (fun _ => exLegitDraw) (fun _ => 0)).length = 0
    ∧ (main_pipeline ⟨1, 0, 1, 1, 1⟩ (exDraws (List.range 13))
        exIds).length = 13 := by
  constructor
  · rfl
  · have hlen : (assembled ⟨1, 0, 1, 1, 1⟩ (exDraws (List.range 13))
        exIds).length = 13 := by
      rw [assembled_length]
      decide
    have hperm : List.Perm (exDraws (List.range 13)).shuffleSel
        (List.range (assembled ⟨1, 0, 1, 1, 1⟩ (exDraws (List.range 13))
          exIds).length) := by
      rw [hlen]
      exact List.Perm.refl _
    have h := ((sortByKey_perm _).trans (permuteIdx_perm hperm)).length_eq
    rw [show (main_pipeline ⟨1, 0, 1, 1, 1⟩ (exDraws (List.range 13))
        exIds).length = (assembled ⟨1, 0, 1, 1, 1⟩ (exDraws (List.range 13))
        exIds).length from h, hlen]

/-! ## Claim C10 — legitimate timestamps and the one-year window -/

/-- C10 counterexample: `randint(0, delta_seconds)` includes both
endpoints; the draw 0 puts the record's timestamp exactly at the window
start `2025-01-01 00:00:00` (offset 0), which is not *strictly* after
it. -/
theorem legit_ts_window_cex :
    (0 : Nat) ≤ delta_seconds ∧
    ((generate_legitimate_transactions
        (generate_user_profiles 1 (fun _ => exProfileDraw)) 1
        (fun _ => exLegitDraw) (fun _ => 0)).getD 0 default).timestamp = 0
    ∧ ¬ (0 < ((generate_legitimate_transactions
        (generate_user_profiles 1 (fun _ => exProfileDraw)) 1
        (fun _ => exLegitDraw) (fun _ => 0)).getD 0 default).timestamp) :=
  ⟨Nat.zero_le _, rfl, Nat.lt_irrefl 0⟩

/-- C10 (amended). Every legitimate record's timestamp lies in the
*closed* window `[2025-01-01 00:00:00, 2025-12-31 00:00:00]`: in offset
seconds, `0 ≤ timestamp ≤ delta_seconds` (the lower bound is inherent
in the `ℕ` offset model), for every draw of
`randint(0, delta_seconds)` — both endpoints included. -/
theorem legit_ts_in_window (users : List Profile) (n : Nat)
    (d : Nat → LegitDraw) (ids : Nat → Nat)
    (hts : ∀ j, (d j).tsOffset ≤ delta_seconds) :
    ∀ t ∈ generate_legitimate_transactions users n d ids,
      t.timestamp ≤ delta_seconds := by
  intro t ht
  unfold generate_legitimate_transactions at ht
  rw [List.mem_map] at ht
  obtain ⟨j, _, rfl⟩ := ht
  exact hts j

/-- C10 witness: the single offset-0 legitimate record. -/
theorem legit_ts_in_window_witness :
    exLegitDraw.tsOffset ≤ delta_seconds ∧
    ∀ t ∈ generate_legitimate_transactions
        (generate_user_profiles 1 (fun _ => exProfileDraw)) 1
        (fun _ => exLegitDraw) (fun _ => 0),
      t.timestamp ≤ delta_seconds :=
  ⟨Nat.zero_le _,
   legit_ts_in_window (generate_user_profiles 1 (fun _ => exProfileDraw)) 1
    (fun _ => exLegitDraw) (fun _ => 0) (fun _ => Nat.zero_le _)⟩

end RiskMetric
